import Mathlib

/-!
Verification of the assimp scene-view boundary layer.

The development shallowly embeds the Rust source (src/prim.rs, src/macros.rs,
src/metadata.rs, src/material.rs, src/scene.rs, src/texture.rs, src/mesh.rs).
Foreign memory is modelled explicitly: an address is a `Nat` with `0` playing
the role of the null pointer, and the contents of foreign arrays are given by
functions from addresses (element-indexed) to element values.  Machine `f32`
values are modelled as `Rat` (the code only copies them around; it performs no
floating-point arithmetic).  Fallible paths (assertion failures, panics,
undefined behaviour such as an out-of-bounds read, a null dereference or an
out-of-domain `transmute`) are made explicit with `Except`/`Option`.

Functions of the external import engine (`ffi::aiGetMaterial*`,
`ffi::aiImportFile*`, declared in the crate's `ffi` module, which is not under
src/) are modelled from the spec where noted.
-/

set_option autoImplicit false

namespace prim

/-- x, y, z (src/prim.rs `Vector3`, `f32` components modelled as `Rat`). -/
abbrev Vector3 : Type := Rat × Rat × Rat

/-- r, g, b, a (src/prim.rs `Color4`). -/
abbrev Color4 : Type := Rat × Rat × Rat × Rat

/-- b, g, r, a (src/prim.rs `Texel`). -/
abbrev Texel : Type := Rat × Rat × Rat × Rat

/-- Embedding of `prim::slice` (src/prim.rs lines 67-75).

The foreign memory holding the elements is the function `load` from
element-indexed addresses to already-reinterpreted target elements (the
`size_of` equality asserted by the source is the trusted layout precondition
and has no content in this model).  `ptr = 0` models a null pointer.  The
source returns the borrowed slice `(ptr, len)`; here that slice is rendered as
the list of the elements stored at addresses `ptr, ptr+1, …, ptr+len-1`, so
aliasing is expressed by each returned element being exactly the element the
memory holds at the corresponding address. -/
def slice {α : Type} (load : Nat → α) (ptr : Nat) (len : Nat) : List α :=
  if len = 0 ∨ ptr = 0 then []
  else (List.range len).map (fun i => load (ptr + i))

theorem slice_pos {α : Type} (load : Nat → α) (ptr len : Nat)
    (hp : ptr ≠ 0) (hl : 0 < len) :
    slice load ptr len = (List.range len).map (fun i => load (ptr + i)) := by
  unfold slice
  rw [if_neg]
  push_neg
  exact ⟨Nat.pos_iff_ne_zero.mp hl, hp⟩

end prim

/-- Claim C1: for the zero-copy sequence bridge `prim::slice`, a null pointer
or a zero count yields the empty sequence (the two conditions are
indistinguishable in the result); a non-null pointer with positive count
yields a sequence of exactly `n` elements whose `i`-th element is the element
the foreign memory holds at address `p + i` (aliasing, no copy). -/
theorem prim_slice_bridge {α : Type} (load : Nat → α) (p n : Nat) :
    ((p = 0 ∨ n = 0) → prim.slice load p n = []) ∧
    (p ≠ 0 → 0 < n →
      (prim.slice load p n).length = n ∧
      ∀ i, i < n → (prim.slice load p n).get? i = some (load (p + i))) := by
  constructor
  · intro h
    unfold prim.slice
    rw [if_pos]
    exact h.elim (fun h => Or.inr h) (fun h => Or.inl h)
  · intro hp hn
    rw [prim.slice_pos load p n hp hn]
    constructor
    · simp
    · intro i hi
      rw [List.get?_map, List.get?_range hi]
      rfl

/-- Witness for C1 at `p = 5`, `n = 3` over the memory `load = id`, and the
null/zero cases at `(0, 3)` and `(5, 0)`. -/
theorem prim_slice_bridge_witness :
    prim.slice (fun a => a) 0 3 = [] ∧
    prim.slice (fun a => a) 5 0 = [] ∧
    (prim.slice (fun a => a) 5 3).length = 3 ∧
    (prim.slice (fun a => a) 5 3).get? 1 = some 6 :=
  ⟨(prim_slice_bridge (fun a => a) 0 3).1 (Or.inl rfl),
   (prim_slice_bridge (fun a => a) 5 0).1 (Or.inr rfl),
   ((prim_slice_bridge (fun a => a) 5 3).2 (by decide) (by decide)).1,
   ((prim_slice_bridge (fun a => a) 5 3).2 (by decide) (by decide)).2 1 (by decide)⟩

/-!
## Closed-domain enum translator (src/macros.rs `ai_impl_enum`)

Each enumeration keeps the discriminants of the Rust source.  `toFfi` is the
discriminant (`v as u32`); `fromFfi` embeds the generated
`from_ffi(x) = transmute(x)`: a transmute into a `#[repr(u32)]` enum is
defined exactly on the declared discriminants, so `fromFfi` returns `none`
(undefined behaviour) outside the documented domain.
-/

/-- Shading modes (src/material.rs lines 219-260). -/
inductive ShadingMode
  | Flat | Gouraud | Phong | Blinn | Toon
  | OrenNayar | Minnaert | CookTorrance | NoShading | Fresnel
deriving DecidableEq, Repr

def ShadingMode.toFfi : ShadingMode → Nat
  | .Flat => 0x1 | .Gouraud => 0x2 | .Phong => 0x3 | .Blinn => 0x4
  | .Toon => 0x5 | .OrenNayar => 0x6 | .Minnaert => 0x7
  | .CookTorrance => 0x8 | .NoShading => 0x9 | .Fresnel => 0xA

def ShadingMode.fromFfi : Nat → Option ShadingMode
  | 0x1 => some .Flat | 0x2 => some .Gouraud | 0x3 => some .Phong
  | 0x4 => some .Blinn | 0x5 => some .Toon | 0x6 => some .OrenNayar
  | 0x7 => some .Minnaert | 0x8 => some .CookTorrance
  | 0x9 => some .NoShading | 0xA => some .Fresnel
  | _ => none

/-- Texture combine operators (src/material.rs lines 34-52). -/
inductive TextureOp
  | Multiply | Add | Subtract | Divide | SmoothAdd | SignedAdd
deriving DecidableEq, Repr

def TextureOp.toFfi : TextureOp → Nat
  | .Multiply => 0x0 | .Add => 0x1 | .Subtract => 0x2
  | .Divide => 0x3 | .SmoothAdd => 0x4 | .SignedAdd => 0x5

def TextureOp.fromFfi : Nat → Option TextureOp
  | 0x0 => some .Multiply | 0x1 => some .Add | 0x2 => some .Subtract
  | 0x3 => some .Divide | 0x4 => some .SmoothAdd | 0x5 => some .SignedAdd
  | _ => none

/-- Texture wrap modes (src/material.rs lines 60-75; note `Decal = 0x3`,
`Mirror = 0x2` as in the source). -/
inductive TextureMapMode
  | Wrap | Clamp | Decal | Mirror
deriving DecidableEq, Repr

def TextureMapMode.toFfi : TextureMapMode → Nat
  | .Wrap => 0x0 | .Clamp => 0x1 | .Decal => 0x3 | .Mirror => 0x2

def TextureMapMode.fromFfi : Nat → Option TextureMapMode
  | 0x0 => some .Wrap | 0x1 => some .Clamp
  | 0x3 => some .Decal | 0x2 => some .Mirror
  | _ => none

/-- Texture mapping-coordinate generation (src/material.rs lines 87-109). -/
inductive TextureMapping
  | Uv | Sphere | Cylinder | Box | Plane | Other
deriving DecidableEq, Repr

def TextureMapping.toFfi : TextureMapping → Nat
  | .Uv => 0x0 | .Sphere => 0x1 | .Cylinder => 0x2
  | .Box => 0x3 | .Plane => 0x4 | .Other => 0x5

def TextureMapping.fromFfi : Nat → Option TextureMapping
  | 0x0 => some .Uv | 0x1 => some .Sphere | 0x2 => some .Cylinder
  | 0x3 => some .Box | 0x4 => some .Plane | 0x5 => some .Other
  | _ => none

/-- Alpha-blend modes (src/material.rs lines 315-321). -/
inductive BlendMode
  | Default | Additive
deriving DecidableEq, Repr

def BlendMode.toFfi : BlendMode → Nat
  | .Default => 0x0 | .Additive => 0x1

def BlendMode.fromFfi : Nat → Option BlendMode
  | 0x0 => some .Default | 0x1 => some .Additive | _ => none

/-- Animation extrapolation behaviour (src/anim.rs lines 51-67). -/
inductive AnimBehavior
  | Default | Constant | Linear | Repeat
deriving DecidableEq, Repr

def AnimBehavior.toFfi : AnimBehavior → Nat
  | .Default => 0x0 | .Constant => 0x1 | .Linear => 0x2 | .Repeat => 0x3

def AnimBehavior.fromFfi : Nat → Option AnimBehavior
  | 0x0 => some .Default | 0x1 => some .Constant
  | 0x2 => some .Linear | 0x3 => some .Repeat | _ => none

/-- Light source kinds (src/light.rs lines 6-36). -/
inductive LightSourceType
  | Undefined | Directional | Point | Spot | Ambient | Area
deriving DecidableEq, Repr

def LightSourceType.toFfi : LightSourceType → Nat
  | .Undefined => 0x0 | .Directional => 0x1 | .Point => 0x2
  | .Spot => 0x3 | .Ambient => 0x4 | .Area => 0x5

def LightSourceType.fromFfi : Nat → Option LightSourceType
  | 0x0 => some .Undefined | 0x1 => some .Directional | 0x2 => some .Point
  | 0x3 => some .Spot | 0x4 => some .Ambient | 0x5 => some .Area
  | _ => none

/-- Texture semantics (src/material.rs lines 127-204); needed by the
texture-slot query. -/
inductive TextureType
  | NoneTy | Diffuse | Specular | Ambient | Emissive | Height | Normals
  | Shininess | Opacity | Displacement | Lightmap | Reflection | Unknown
deriving DecidableEq, Repr

def TextureType.toFfi : TextureType → Nat
  | .NoneTy => 0x0 | .Diffuse => 0x1 | .Specular => 0x2 | .Ambient => 0x3
  | .Emissive => 0x4 | .Height => 0x5 | .Normals => 0x6 | .Shininess => 0x7
  | .Opacity => 0x8 | .Displacement => 0x9 | .Lightmap => 0xA
  | .Reflection => 0xB | .Unknown => 0xC

/-- Claim C7: for every closed enumeration of the translator and every variant
`v`, decoding the discriminant of `v` yields `v` again:
`from_ffi(v as u32) = v` (the transmute is defined there and is the inverse of
the discriminant). -/
theorem enum_decode_encode_roundtrip :
    (∀ v : ShadingMode, ShadingMode.fromFfi v.toFfi = some v) ∧
    (∀ v : TextureMapping, TextureMapping.fromFfi v.toFfi = some v) ∧
    (∀ v : TextureOp, TextureOp.fromFfi v.toFfi = some v) ∧
    (∀ v : TextureMapMode, TextureMapMode.fromFfi v.toFfi = some v) ∧
    (∀ v : BlendMode, BlendMode.fromFfi v.toFfi = some v) ∧
    (∀ v : AnimBehavior, AnimBehavior.fromFfi v.toFfi = some v) ∧
    (∀ v : LightSourceType, LightSourceType.fromFfi v.toFfi = some v) := by
  refine ⟨?_, ?_, ?_, ?_, ?_, ?_, ?_⟩ <;> intro v <;> cases v <;> rfl

/-!
## Tagged-value metadata iterator (src/metadata.rs)

The foreign `ffi::aiMetadata` record (its declaration lives in the crate's
`ffi` module, not under src/; its shape is fully determined by the uses in
src/metadata.rs) holds a property count and base pointers `mKeys`/`mValues`
to two parallel foreign arrays.  Array contents are modelled element-indexed:
`keyAt i` is the `aiString` in key slot `i` and `valueAt i` the
`aiMetadataEntry` in value slot `i`; `none` means slot `i` lies outside the
allocation, so reading it is undefined behaviour. -/

/-- Decoded metadata value (src/metadata.rs lines 4-12). -/
inductive MetadataValue
  | bool (b : Bool)
  | i32 (i : Int)
  | u64 (n : Nat)
  | f32 (q : Rat)
  | vector3 (v : Rat × Rat × Rat)
  | str (s : String)
deriving DecidableEq, Repr

/-- A foreign `aiMetadataEntry`: a raw type tag `mType` (0 = AI_BOOL,
1 = AI_INT, 2 = AI_UINT64, 3 = AI_FLOAT, 4 = AI_AIVECTOR3D,
5 = AI_AISTRING) and the payload behind the `mData` pointer; `mData = none`
models a null data pointer, and a present payload is the value obtained by
reading the pointee as the (trusted) tag directs. -/
structure aiMetadataEntry where
  mType : Nat
  mData : Option MetadataValue
deriving DecidableEq, Repr

/-- The foreign `ffi::aiMetadata` record together with the contents of the
foreign memory its two array pointers reach. -/
structure aiMetadata where
  mNumProperties : Nat
  mKeysAddr : Nat
  mValuesAddr : Nat
  keyAt : Nat → Option String
  valueAt : Nat → Option aiMetadataEntry

/-- Abnormal terminations of the iterator code: reads outside the arrays,
the `unwrap` panic on a zero-length key string, the `unreachable!` arm on an
unknown type tag, a dereference of a null `mData` pointer, and the `unwrap`
panic inside the `AI_AISTRING` arm on a zero-length string. -/
inductive IterErr
  | oobRead | emptyKeyPanic | invalidTag | nullDeref | emptyStrPanic
deriving DecidableEq, Repr

/-- Decoding of one entry inside `Iter::next` (src/metadata.rs lines 61-69):
the `match val_raw.mType` dispatch.  An out-of-domain tag hits
`unreachable!`; every valid arm dereferences `mData`, which is undefined
behaviour when that pointer is null; the string arm additionally passes
through `prim::str(..).unwrap()`, which panics on a zero-length string. -/
def decodeEntry (e : aiMetadataEntry) : Except IterErr MetadataValue :=
  if e.mType ≥ 6 then .error .invalidTag
  else
    match e.mData with
    | none => .error .nullDeref
    | some v =>
      match v with
      | .str s => if s = "" then .error .emptyStrPanic else .ok (.str s)
      | v => .ok v

/-- Embedding of `Iter::next` (src/metadata.rs lines 46-72), with the
iterator state `idx` passed explicitly.  The source increments `self.idx`
BEFORE reading, so the reads use `idx + 1`; the null test
`val_ptr.is_null()` is on the computed slot address
`mValues.offset(self.idx)`, i.e. `mValuesAddr + (idx+1)` here.
`ok none` is iterator exhaustion; `ok (some (pair, idx'))` yields `pair` and
the new state `idx'`.  The `return self.next()` skip branch recurses; each
recursive step increments `idx` and requires `idx < mNumProperties`, so the
recursion depth is at most `mNumProperties`; `fuel` makes the recursion
structural (hence kernel-computable) and the fuel-exhausted arm is
unreachable whenever `fuel > mNumProperties`. -/
def iterNextF (md : aiMetadata) : Nat → Nat →
    Except IterErr (Option ((String × MetadataValue) × Nat))
  | 0, _ => .error .oobRead
  | fuel + 1, idx =>
    if md.mNumProperties ≤ idx then .ok none
    else
      let idx' := idx + 1
      match md.keyAt idx' with
      | none => .error .oobRead
      | some k =>
        if k = "" then .error .emptyKeyPanic
        else
          if md.mValuesAddr + idx' = 0 then
            -- `return self.next()`: skip branch (never taken when mValuesAddr ≠ 0)
            iterNextF md fuel idx'
          else
            match md.valueAt idx' with
            | none => .error .oobRead
            | some e => (decodeEntry e).map (fun v => some ((k, v), idx'))

/-- `Iter::next` with sufficient fuel (the skip recursion can take at most
`mNumProperties` steps, so `mNumProperties + 1` always suffices). -/
def iterNext (md : aiMetadata) (idx : Nat) :
    Except IterErr (Option ((String × MetadataValue) × Nat)) :=
  iterNextF md (md.mNumProperties + 1) idx

/-- Runs the iterator from state `idx`, collecting every yielded pair;
`fuel` bounds the number of steps (any `fuel` larger than the number of
remaining yields gives the full sequence). -/
def iterTake (md : aiMetadata) : Nat → Nat → Except IterErr (List (String × MetadataValue))
  | 0, _ => .ok []
  | fuel + 1, idx =>
    match iterNext md idx with
    | .error e => .error e
    | .ok none => .ok []
    | .ok (some (p, idx')) =>
      match iterTake md fuel idx' with
      | .error e => .error e
      | .ok rest => .ok (p :: rest)

/-- Concrete metadata block for C2: `N = 2` pairs, keys `["a", "b"]`, entry 0
a valid `AI_INT 5`, entry 1 (the entry `k = 1` of the claim) carrying a null
value data pointer.  The claimed iteration result is `[("a", i32 5)]`. -/
def mdNull : aiMetadata where
  mNumProperties := 2
  mKeysAddr := 100
  mValuesAddr := 200
  keyAt := fun i => [ "a", "b" ].get? i
  valueAt := fun i => [ ⟨1, some (.i32 5)⟩, ⟨1, none⟩ ].get? i

/-- Concrete metadata block with no null-valued entry at all: keys
`["a", "b"]`, both entries valid `AI_INT`s (5 and 7).  The claimed iteration
result would be `[("a", i32 5), ("b", i32 7)]`. -/
def mdPlain : aiMetadata where
  mNumProperties := 2
  mKeysAddr := 100
  mValuesAddr := 200
  keyAt := fun i => [ "a", "b" ].get? i
  valueAt := fun i => [ ⟨1, some (.i32 5)⟩, ⟨1, some (.i32 7)⟩ ].get? i

/-- Claim C2 (code bug): on `mdNull` (2 pairs, entry 1 null-valued) the
iterator is claimed to yield exactly the 1 pair `("a", i32 5)`; instead the
very first `next` call pre-increments the index, reads slot 1 and
dereferences the null `mData` pointer (the `val_ptr.is_null()` test inspects
the slot address, which is never null, so the entry is not skipped).  Even
with no null-valued entry (`mdPlain`) the iterator first yields slot 1,
skipping slot 0, and then reads slot 2, one past the end of the arrays. -/
theorem metadata_iter_off_by_one_bug :
    iterTake mdNull 3 0 = .error .nullDeref ∧
    iterTake mdNull 3 0 ≠ .ok [("a", .i32 5)] ∧
    iterNext mdPlain 0 = .ok (some (("b", .i32 7), 1)) ∧
    iterNext mdPlain 1 = .error .oobRead ∧
    iterTake mdPlain 3 0 = .error .oobRead := by
  refine ⟨rfl, ?_, rfl, rfl, rfl⟩
  intro h
  exact Except.noConfusion h

/-!
## Typed property query protocol (src/material.rs)

The generic foreign property store behind `ffi::aiMaterial` and the engine
query functions `aiGetMaterialString` / `aiGetMaterialIntegerArray` /
`aiGetMaterialFloatArray` / `aiGetMaterialColor` /
`aiGetMaterialTextureCount` / `aiGetMaterialTexture` are part of the import
engine (the crate's `ffi` module is not under src/).  They are modelled from
the spec below.
-/

/-- One property of the generic store: string key, semantic, index and a
type-tagged payload. -/
inductive MatValue
  | int (i : Int)
  | float (q : Rat)
  | str (s : String)
  | color (c : prim.Color4)
deriving DecidableEq

structure MatProp where
  key : String
  semantic : Nat
  index : Nat
  value : MatValue
deriving DecidableEq

/-- A binding the engine's `aiGetMaterialTexture` writes into its out
parameters on success: texture path string, raw mapping / op / wrap-mode /
flags codes (small foreign integers), uv-channel index and blend factor. -/
structure RawTexBinding where
  path : String
  mapping : Nat
  uv_index : Nat
  blend : Rat
  op : Nat
  map_mode0 : Nat
  map_mode1 : Nat
  flags : Nat
deriving DecidableEq

/-- Modelled from the spec: the foreign `aiMaterial` — the generic, ordered,
string-keyed property store (`props`), together with the engine's per-semantic
texture-slot store read by `get_texture_count`/`get_texture_binding`
(`ffi.rs` with the engine declarations is not under src/). -/
structure aiMaterial where
  props : List MatProp
  textures : TextureType → List RawTexBinding

/-- Modelled from the spec: `get_material_*` — the first property matching
(key, semantic, index); failure (`none`) when no such property exists or its
payload has the wrong type tag. -/
def findMatProp (m : aiMaterial) (key : String) (sem idx : Nat) : Option MatValue :=
  (m.props.find? (fun p => p.key == key && p.semantic == sem && p.index == idx)).map
    (fun p => p.value)

/-- Modelled from the spec: `ffi::aiGetMaterialString`. -/
def aiGetMaterialString (m : aiMaterial) (key : String) (sem idx : Nat) : Option String :=
  match findMatProp m key sem idx with
  | some (.str s) => some s
  | _ => none

/-- Modelled from the spec: `ffi::aiGetMaterialIntegerArray` (single value,
`pMax = null`). -/
def aiGetMaterialInteger (m : aiMaterial) (key : String) (sem idx : Nat) : Option Int :=
  match findMatProp m key sem idx with
  | some (.int i) => some i
  | _ => none

/-- Modelled from the spec: `ffi::aiGetMaterialFloatArray` (single value,
`pMax = null`). -/
def aiGetMaterialFloat (m : aiMaterial) (key : String) (sem idx : Nat) : Option Rat :=
  match findMatProp m key sem idx with
  | some (.float q) => some q
  | _ => none

/-- Modelled from the spec: `ffi::aiGetMaterialColor`. -/
def aiGetMaterialColor (m : aiMaterial) (key : String) (sem idx : Nat) : Option prim.Color4 :=
  match findMatProp m key sem idx with
  | some (.color c) => some c
  | _ => none

/-- Modelled from the spec: `ffi::aiGetMaterialTextureCount` — the number of
texture slots recorded for the semantic. -/
def aiGetMaterialTextureCount (m : aiMaterial) (t : TextureType) : Nat :=
  (m.textures t).length

/-- Modelled from the spec: `ffi::aiGetMaterialTexture` — the binding at slot
`idx` of the semantic, `not_found` (`none`) when the index is out of range. -/
def aiGetMaterialTexture (m : aiMaterial) (t : TextureType) (idx : Nat) :
    Option RawTexBinding :=
  (m.textures t).get? idx

/-- `ffi::aiColor4D::default()`: all components zero. -/
def aiColor4D_default : prim.Color4 := ((0 : Rat), (0 : Rat), (0 : Rat), (0 : Rat))

/-- Cast `c_int → c_uint` (`shading_mode as c_uint` in the source):
two's-complement reinterpretation. -/
def i32ToU32 (i : Int) : Nat := (i % 2 ^ 32).toNat

/-- Aggregate record built by `Material::material_properties`
(src/material.rs lines 417-438). -/
structure MaterialProperties where
  name : String
  twosided : Bool
  shading_mode : ShadingMode
  wireframe : Bool
  blend_mode : BlendMode
  opacity : Rat
  bumpscaling : Rat
  shininess : Rat
  shininess_strength : Rat
  reflectivity : Rat
  refracti : Rat
  color_diffuse : prim.Color4
  color_ambient : prim.Color4
  color_specular : prim.Color4
  color_emissive : prim.Color4
  color_transparent : prim.Color4
  color_reflective : prim.Color4

/-!
Each `let mut x = default; aiGetMaterial*(…, &mut x, …)` pair of the source
(the out parameter keeps its initial value when the engine call fails) is
embedded as `(aiGetMaterial* …).getD default`, one helper per key.
-/

def aggName (m : aiMaterial) : String := (aiGetMaterialString m "?mat.name" 0 0).getD ""
def aggTwosided (m : aiMaterial) : Int := (aiGetMaterialInteger m "$mat.twosided" 0 0).getD 0
/-- Initial value `ShadingMode::Gouraud as u32 as i32 = 2` (src/material.rs line 474). -/
def aggShadingRaw (m : aiMaterial) : Int := (aiGetMaterialInteger m "$mat.shadingm" 0 0).getD 2
def aggWireframe (m : aiMaterial) : Int := (aiGetMaterialInteger m "$mat.wireframe" 0 0).getD 0
def aggBlendRaw (m : aiMaterial) : Int := (aiGetMaterialInteger m "$mat.blend" 0 0).getD 0
def aggOpacity (m : aiMaterial) : Rat := (aiGetMaterialFloat m "$mat.opacity" 0 0).getD 1
def aggBumpscaling (m : aiMaterial) : Rat := (aiGetMaterialFloat m "$mat.bumpscaling" 0 0).getD 0
def aggShininess (m : aiMaterial) : Rat := (aiGetMaterialFloat m "$mat.shininess" 0 0).getD 0
def aggShininessStrength (m : aiMaterial) : Rat := (aiGetMaterialFloat m "$mat.shinpercent" 0 0).getD 1
def aggReflectivity (m : aiMaterial) : Rat := (aiGetMaterialFloat m "$mat.reflectivity" 0 0).getD 0
def aggRefracti (m : aiMaterial) : Rat := (aiGetMaterialFloat m "$mat.refracti" 0 0).getD 1
def aggColorDiffuse (m : aiMaterial) : prim.Color4 := (aiGetMaterialColor m "$clr.diffuse" 0 0).getD aiColor4D_default
def aggColorAmbient (m : aiMaterial) : prim.Color4 := (aiGetMaterialColor m "$clr.ambient" 0 0).getD aiColor4D_default
def aggColorSpecular (m : aiMaterial) : prim.Color4 := (aiGetMaterialColor m "$clr.specular" 0 0).getD aiColor4D_default
def aggColorEmissive (m : aiMaterial) : prim.Color4 := (aiGetMaterialColor m "$clr.emissive" 0 0).getD aiColor4D_default
def aggColorTransparent (m : aiMaterial) : prim.Color4 := (aiGetMaterialColor m "$clr.transparent" 0 0).getD aiColor4D_default
def aggColorReflective (m : aiMaterial) : prim.Color4 := (aiGetMaterialColor m "$clr.reflective" 0 0).getD aiColor4D_default

/-- Embedding of `Material::material_properties` (src/material.rs lines
471-563).  `error` models the panics/undefined behaviour of the source:
`prim::str(&name).unwrap()` panics on a zero-length name string, and the
transmutes `ShadingMode::from_ffi` / `BlendMode::from_ffi` are undefined
outside the enum domains. -/
def materialProperties (m : aiMaterial) : Except Unit MaterialProperties :=
  if aggName m = "" then .error ()
  else
    match ShadingMode.fromFfi (i32ToU32 (aggShadingRaw m)),
          BlendMode.fromFfi (i32ToU32 (aggBlendRaw m)) with
    | some sm, some bm =>
      .ok {
        name := aggName m
        twosided := aggTwosided m != 0
        shading_mode := sm
        wireframe := aggWireframe m != 0
        blend_mode := bm
        opacity := aggOpacity m
        bumpscaling := aggBumpscaling m
        shininess := aggShininess m
        shininess_strength := aggShininessStrength m
        reflectivity := aggReflectivity m
        refracti := aggRefracti m
        color_diffuse := aggColorDiffuse m
        color_ambient := aggColorAmbient m
        color_specular := aggColorSpecular m
        color_emissive := aggColorEmissive m
        color_transparent := aggColorTransparent m
        color_reflective := aggColorReflective m }
    | _, _ => .error ()

/-- Claim C3: for every material store on which the aggregate query returns a
record, an absent opacity key is filled with the default `1.0`, an absent
refraction-index key with `1.0`, and an absent shading-model key with the
Gouraud variant. -/
theorem material_aggregate_defaults (m : aiMaterial) (r : MaterialProperties)
    (h : materialProperties m = .ok r) :
    (aiGetMaterialFloat m "$mat.opacity" 0 0 = none → r.opacity = 1) ∧
    (aiGetMaterialFloat m "$mat.refracti" 0 0 = none → r.refracti = 1) ∧
    (aiGetMaterialInteger m "$mat.shadingm" 0 0 = none →
      r.shading_mode = ShadingMode.Gouraud) := by
  unfold materialProperties at h
  split at h
  · exact absurd h (by simp)
  · split at h
    next sm bm hsm hbm =>
      refine ⟨?_, ?_, ?_⟩ <;> intro hq
      · cases h
        simp [aggOpacity, hq]
      · cases h
        simp [aggRefracti, hq]
      · cases h
        simp only [aggShadingRaw, hq, Option.getD_none] at hsm
        have : ShadingMode.fromFfi (i32ToU32 2) = some ShadingMode.Gouraud := rfl
        rw [this] at hsm
        cases hsm
        rfl
    next => exact absurd h (by simp)

/-- Material store for the C3 witness: only a name property is set (every key
of the aggregate query other than the name is absent). -/
def mtlNameOnly : aiMaterial where
  props := [ ⟨"?mat.name", 0, 0, .str "mat0"⟩ ]
  textures := fun _ => []

/-- Witness for C3: on `mtlNameOnly` the aggregate query succeeds and fills
opacity, refraction index and shading model with their defaults. -/
theorem material_aggregate_defaults_witness :
    ∃ r, materialProperties mtlNameOnly = .ok r ∧
      r.opacity = 1 ∧ r.refracti = 1 ∧ r.shading_mode = ShadingMode.Gouraud := by
  obtain ⟨r, hr⟩ : ∃ r, materialProperties mtlNameOnly = .ok r := ⟨_, rfl⟩
  exact ⟨r, hr,
    (material_aggregate_defaults mtlNameOnly r hr).1 rfl,
    (material_aggregate_defaults mtlNameOnly r hr).2.1 rfl,
    (material_aggregate_defaults mtlNameOnly r hr).2.2 rfl⟩

/-- Decoded texture-slot binding (src/material.rs lines 448-457); the
wrap-mode pair `map_mode: [TextureMapMode; 2]` is rendered as a list. -/
structure TextureProperties where
  texture_ref : String
  mapping : TextureMapping
  uv_index : Option Nat
  blend : Rat
  op : TextureOp
  map_mode : List TextureMapMode
  flags : Nat
deriving DecidableEq

/-- `TextureFlags::from_bits` — defined exactly when `bits` uses only the
declared flag bits `INVERT | USE_ALPHA | IGNORE_ALPHA = 0x7`
(src/material.rs lines 273-293). -/
def TextureFlags.fromBits (bits : Nat) : Option Nat :=
  if bits &&& 0x7 = bits then some bits else none

/-- Embedding of `Material::count_texture_properties`
(src/material.rs lines 565-572). -/
def countTextureProperties (m : aiMaterial) (tex_ty : TextureType) : Nat :=
  aiGetMaterialTextureCount m tex_ty

/-- Embedding of `Material::texture_properties` (src/material.rs lines
574-617).  `ok none` is the absence result; `error` models the source's
panics/undefined behaviour when the engine hands back a binding outside the
trusted domain (`prim::str(&path).unwrap()` on a zero-length path,
`from_ffi` transmutes on out-of-domain codes,
`TextureFlags::from_bits(flags).unwrap()` on unknown bits). -/
def textureProperties (m : aiMaterial) (tex_ty : TextureType) (idx : Nat) :
    Except Unit (Option TextureProperties) :=
  if countTextureProperties m tex_ty ≤ idx then .ok none
  else
    match aiGetMaterialTexture m tex_ty idx with
    | none => .ok none
    | some raw =>
      if raw.path = "" then .error ()
      else
        match TextureMapping.fromFfi raw.mapping, TextureOp.fromFfi raw.op,
              TextureMapMode.fromFfi raw.map_mode0,
              TextureMapMode.fromFfi raw.map_mode1,
              TextureFlags.fromBits raw.flags with
        | some mapping, some op, some mm0, some mm1, some flags =>
          .ok (some {
            texture_ref := raw.path
            mapping := mapping
            uv_index := if raw.uv_index ≠ 0xFFFFFFFF then some raw.uv_index else none
            blend := raw.blend
            op := op
            map_mode := [mm0, mm1]
            flags := flags })
        | _, _, _, _, _ => .error ()

/-- A binding the engine may return whose codes lie in the trusted domains:
non-empty path, valid mapping / op / wrap-mode discriminants, known flag
bits. -/
def rawTexValid (raw : RawTexBinding) : Prop :=
  raw.path ≠ "" ∧ (TextureMapping.fromFfi raw.mapping).isSome ∧
  (TextureOp.fromFfi raw.op).isSome ∧
  (TextureMapMode.fromFfi raw.map_mode0).isSome ∧
  (TextureMapMode.fromFfi raw.map_mode1).isSome ∧
  (TextureFlags.fromBits raw.flags).isSome

/-- Claim C4: the indexed texture-slot query returns the absence value for
every index at or beyond the semantic's count (never a crash), and every
binding it returns has a wrap-mode pair of exactly 2 entries; for an
in-range index at which the underlying engine query succeeds (with codes in
the trusted domain) a binding is returned. -/
theorem texture_slot_query (m : aiMaterial) (tex_ty : TextureType) (idx : Nat) :
    (countTextureProperties m tex_ty ≤ idx →
      textureProperties m tex_ty idx = .ok none) ∧
    (∀ b, textureProperties m tex_ty idx = .ok (some b) → b.map_mode.length = 2) ∧
    (idx < countTextureProperties m tex_ty →
      ∀ raw, aiGetMaterialTexture m tex_ty idx = some raw → rawTexValid raw →
        ∃ b, textureProperties m tex_ty idx = .ok (some b) ∧
          b.map_mode.length = 2) := by
  refine ⟨?_, ?_, ?_⟩
  · intro h
    unfold textureProperties
    rw [if_pos h]
  · intro b hb
    unfold textureProperties at hb
    split at hb
    · cases hb
    · split at hb
      · cases hb
      · split at hb
        · cases hb
        · split at hb
          · cases hb
            rfl
          · cases hb
  · intro hlt raw hraw hvalid
    obtain ⟨hpath, hmap, hop, hmm0, hmm1, hflags⟩ := hvalid
    obtain ⟨mapping, hm⟩ := Option.isSome_iff_exists.mp hmap
    obtain ⟨op, ho⟩ := Option.isSome_iff_exists.mp hop
    obtain ⟨mm0, h0⟩ := Option.isSome_iff_exists.mp hmm0
    obtain ⟨mm1, h1⟩ := Option.isSome_iff_exists.mp hmm1
    obtain ⟨flags, hf⟩ := Option.isSome_iff_exists.mp hflags
    refine ⟨{ texture_ref := raw.path, mapping := mapping,
              uv_index := if raw.uv_index ≠ 0xFFFFFFFF then some raw.uv_index else none,
              blend := raw.blend, op := op, map_mode := [mm0, mm1],
              flags := flags }, ?_, rfl⟩
    unfold textureProperties
    rw [if_neg (Nat.not_le_of_lt hlt)]
    simp only [hraw, hm, ho, h0, h1, hf]
    rw [if_neg hpath]

/-- Material store for the C4 witness: one diffuse texture slot with
in-domain codes; queried at the valid index 0 and the out-of-range index 1. -/
def mtlOneTex : aiMaterial where
  props := []
  textures := fun t =>
    match t with
    | .Diffuse => [ ⟨"tex.png", 0, 0xFFFFFFFF, 0, 0, 0, 1, 0x3⟩ ]
    | _ => []

/-- Witness for C4 on `mtlOneTex`: index 1 is out of range for the diffuse
semantic and yields the absence value; index 0 is in range and yields a
binding with a wrap-mode pair of exactly 2 entries. -/
theorem texture_slot_query_witness :
    textureProperties mtlOneTex .Diffuse 1 = .ok none ∧
    ∃ b, textureProperties mtlOneTex .Diffuse 0 = .ok (some b) ∧
      b.map_mode.length = 2 :=
  ⟨(texture_slot_query mtlOneTex .Diffuse 1).1 (by decide),
   (texture_slot_query mtlOneTex .Diffuse 0).2.2 (by decide) _ rfl
     (by refine ⟨?_, ?_, ?_, ?_, ?_, ?_⟩ <;> decide)⟩

/-!
## Ownership root and borrowed-view construction (src/scene.rs, src/macros.rs)
-/

/-- The generic borrowed view generated by `ai_ptr_type!`: a wrapper around a
non-null foreign pointer. -/
structure AiPtrView where
  ptr : Nat
deriving DecidableEq

/-- Embedding of the `ai_ptr_type!` constructor `from_ptr` (src/macros.rs
lines 32-35): `assert!(!ptr.is_null())`, then wrap.  `error` models the
assertion failure. -/
def AiPtrView.fromPtr (p : Nat) : Except Unit AiPtrView :=
  if p = 0 then .error () else .ok ⟨p⟩

/-- The ownership root (src/scene.rs lines 148-150): holds the foreign
`aiScene` pointer. -/
structure Scene where
  raw : Nat
deriving DecidableEq

/-- Embedding of `Scene::from_ptr` (src/scene.rs lines 161-164):
`assert!(!ptr.is_null())`, then borrow the pointee. -/
def Scene.fromPtr (p : Nat) : Except Unit Scene :=
  if p = 0 then .error () else .ok ⟨p⟩

/-- Embedding of `Iter::new` (src/metadata.rs lines 37-40), the constructor
`MetaData::iter` delegates to: asserts that both the key-array and the
value-array pointers are non-null, then starts at index 0. -/
def iterNew (md : aiMetadata) : Except Unit (aiMetadata × Nat) :=
  if md.mKeysAddr = 0 ∨ md.mValuesAddr = 0 then .error () else .ok (md, 0)

/-- Modelled from the spec: the import engine as consumed by
`Scene::from_file` / `Scene::from_bytes` (`ffi::aiImportFile`,
`ffi::aiImportFileFromMemory`, `ffi::aiGetErrorString`; the crate's `ffi`
module is not under src/).  An import call returns a foreign scene pointer
(`0` = null = no usable scene) and `lastError` is the engine's last-error
text. -/
structure ImportEngine where
  importFile : String → Nat → Nat
  importMemory : List Nat → Nat → String → Nat
  lastError : String

/-- Embedding of `Scene::from_file` (src/scene.rs lines 179-189): call the
engine; a null scene pointer yields `Err(get_error_string())`, otherwise the
`Scene` is built with `Scene::from_ptr` (whose assertion cannot fire, the
pointer having just been checked non-null). -/
def Scene.fromFile (eng : ImportEngine) (path : String) (flags : Nat) :
    Except String Scene :=
  let ptr := eng.importFile path flags
  if ptr = 0 then .error eng.lastError
  else
    match Scene.fromPtr ptr with
    | .ok s => .ok s
    | .error _ => .error eng.lastError  -- unreachable: ptr ≠ 0 in this branch

/-- Embedding of `Scene::from_bytes` (src/scene.rs lines 198-211); the format
hint is passed to the engine as the nul-terminated `format!("{}\x00", hint)`. -/
def Scene.fromBytes (eng : ImportEngine) (bytes : List Nat) (hint : String)
    (flags : Nat) : Except String Scene :=
  let pHint := hint ++ "\x00"
  let ptr := eng.importMemory bytes flags pHint
  if ptr = 0 then .error eng.lastError
  else
    match Scene.fromPtr ptr with
    | .ok s => .ok s
    | .error _ => .error eng.lastError  -- unreachable: ptr ≠ 0 in this branch

/-- Claim C5: for `Scene::from_file` and `Scene::from_bytes`, when the import
engine returns no usable scene handle the result is an error carrying the
engine's last-error text (no `Scene` value exists); when the engine returns a
usable (non-null) handle the result is a successful `Scene`. -/
theorem scene_import_result (eng : ImportEngine) (path : String) (flags : Nat)
    (bytes : List Nat) (hint : String) :
    (eng.importFile path flags = 0 →
      Scene.fromFile eng path flags = .error eng.lastError) ∧
    (eng.importFile path flags ≠ 0 →
      Scene.fromFile eng path flags = .ok ⟨eng.importFile path flags⟩) ∧
    (eng.importMemory bytes flags (hint ++ "\x00") = 0 →
      Scene.fromBytes eng bytes hint flags = .error eng.lastError) ∧
    (eng.importMemory bytes flags (hint ++ "\x00") ≠ 0 →
      Scene.fromBytes eng bytes hint flags = .ok ⟨eng.importMemory bytes flags (hint ++ "\x00")⟩) := by
  refine ⟨?_, ?_, ?_, ?_⟩ <;> intro h
  · unfold Scene.fromFile
    rw [if_pos h]
  · unfold Scene.fromFile
    rw [if_neg h]
    unfold Scene.fromPtr
    rw [if_neg h]
  · unfold Scene.fromBytes
    rw [if_pos h]
  · unfold Scene.fromBytes
    rw [if_neg h]
    unfold Scene.fromPtr
    rw [if_neg h]

/-- Concrete engines for the C5 witness: one whose import always fails with
error text "bad file", one whose import always returns the handle 42. -/
def engFail : ImportEngine where
  importFile := fun _ _ => 0
  importMemory := fun _ _ _ => 0
  lastError := "bad file"

def engOk : ImportEngine where
  importFile := fun _ _ => 42
  importMemory := fun _ _ _ => 42
  lastError := ""

/-- Witness for C5 on the two concrete engines. -/
theorem scene_import_result_witness :
    Scene.fromFile engFail "a.obj" 0 = .error "bad file" ∧
    Scene.fromFile engOk "a.obj" 0 = .ok ⟨42⟩ ∧
    Scene.fromBytes engFail [1, 2] "obj" 0 = .error "bad file" ∧
    Scene.fromBytes engOk [1, 2] "obj" 0 = .ok ⟨42⟩ :=
  ⟨(scene_import_result engFail "a.obj" 0 [1, 2] "obj").1 rfl,
   (scene_import_result engOk "a.obj" 0 [1, 2] "obj").2.1 (by decide),
   (scene_import_result engFail "a.obj" 0 [1, 2] "obj").2.2.1 rfl,
   (scene_import_result engOk "a.obj" 0 [1, 2] "obj").2.2.2 (by decide)⟩

/-- Claim C8: construction of a borrowed view from a raw foreign pointer
asserts non-nullity: for a null pointer the `ai_ptr_type!` `from_ptr`,
`Scene::from_ptr` and the metadata iterator constructor (which asserts its
key/value array pointers) terminate with an assertion failure and produce no
view; for non-null pointers construction succeeds. -/
theorem view_construction_asserts_nonnull (p : Nat) (md : aiMetadata) :
    (p = 0 → AiPtrView.fromPtr p = .error ()) ∧
    (p ≠ 0 → AiPtrView.fromPtr p = .ok ⟨p⟩) ∧
    (p = 0 → Scene.fromPtr p = .error ()) ∧
    (p ≠ 0 → Scene.fromPtr p = .ok ⟨p⟩) ∧
    (md.mKeysAddr = 0 ∨ md.mValuesAddr = 0 → iterNew md = .error ()) ∧
    (md.mKeysAddr ≠ 0 → md.mValuesAddr ≠ 0 → iterNew md = .ok (md, 0)) := by
  refine ⟨?_, ?_, ?_, ?_, ?_, ?_⟩
  · intro h
    unfold AiPtrView.fromPtr
    rw [if_pos h]
  · intro h
    unfold AiPtrView.fromPtr
    rw [if_neg h]
  · intro h
    unfold Scene.fromPtr
    rw [if_pos h]
  · intro h
    unfold Scene.fromPtr
    rw [if_neg h]
  · intro h
    unfold iterNew
    rw [if_pos h]
  · intro h1 h2
    unfold iterNew
    rw [if_neg]
    push_neg
    exact ⟨h1, h2⟩

/-- Witness for C8 at the null pointer, at pointer `7`, and at the concrete
metadata blocks above (non-null key/value arrays at addresses 100/200). -/
theorem view_construction_asserts_nonnull_witness :
    AiPtrView.fromPtr 0 = .error () ∧
    AiPtrView.fromPtr 7 = .ok ⟨7⟩ ∧
    Scene.fromPtr 0 = .error () ∧
    Scene.fromPtr 7 = .ok ⟨7⟩ ∧
    iterNew mdNull = .ok (mdNull, 0) :=
  ⟨(view_construction_asserts_nonnull 0 mdNull).1 rfl,
   (view_construction_asserts_nonnull 7 mdNull).2.1 (by decide),
   (view_construction_asserts_nonnull 0 mdNull).2.2.1 rfl,
   (view_construction_asserts_nonnull 7 mdNull).2.2.2.1 (by decide),
   (view_construction_asserts_nonnull 7 mdNull).2.2.2.2.2 (by decide) (by decide)⟩

/-!
## Node tree (src/scene.rs lines 14-90)

A `Node` view is a non-null address into the foreign graph.  `nodeAt a` gives
the `aiNode` record stored at address `a`, and `slotAt s` the child pointer
stored in slot `s` of a child-pointer array (the arrays `mChildren` reaches;
`Node::children` transmutes those `*mut aiNode` slots into `Node` views via
the bridge).
-/

/-- The fields of the foreign `ffi::aiNode` record used by `Node::parent` /
`Node::children`: parent pointer (0 = null), base pointer of the
child-pointer array, and child count. -/
structure aiNode where
  mParent : Nat
  mChildren : Nat
  mNumChildren : Nat

/-- The foreign node graph memory. -/
structure NodeMem where
  nodeAt : Nat → aiNode
  slotAt : Nat → Nat

/-- Embedding of `Node::parent` (src/scene.rs lines 60-65): `None` when the
parent pointer is null, otherwise the parent view (whose `from_ptr` assertion
cannot fire, the pointer having just been checked non-null). -/
def Node.parent (mem : NodeMem) (a : Nat) : Option Nat :=
  if (mem.nodeAt a).mParent = 0 then none
  else some (mem.nodeAt a).mParent

/-- Embedding of `Node::children` (src/scene.rs lines 68-70): the
`ai_ptr_type!` `slice` over the child-pointer array, i.e. `prim::slice`
reinterpreting each `*mut aiNode` slot as a `Node` view. -/
def Node.children (mem : NodeMem) (a : Nat) : List Nat :=
  prim.slice mem.slotAt (mem.nodeAt a).mChildren (mem.nodeAt a).mNumChildren

/-- The foreign-graph invariant of the claim: the root's parent pointer is
null, and for every (non-null) node address the parent pointer of each of its
children designates that node. -/
def parentLinksCoherent (mem : NodeMem) (root : Nat) : Prop :=
  (mem.nodeAt root).mParent = 0 ∧
  ∀ a, a ≠ 0 → ∀ c, c ∈ Node.children mem a → (mem.nodeAt c).mParent = a

/-- Claim C6: under the foreign-graph invariant (root's parent pointer null;
each child's parent pointer designates its containing node),
`root_node().parent()` is absent, and for every node `n` and every `c` in
`n.children()`, `c.parent()` yields a node equal to `n`. -/
theorem node_tree_coherence (mem : NodeMem) (root : Nat)
    (hinv : parentLinksCoherent mem root) :
    Node.parent mem root = none ∧
    ∀ a, a ≠ 0 → ∀ c, c ∈ Node.children mem a →
      Node.parent mem c = some a := by
  obtain ⟨hroot, hchild⟩ := hinv
  constructor
  · unfold Node.parent
    rw [if_pos hroot]
  · intro a ha c hc
    have hp := hchild a ha c hc
    unfold Node.parent
    rw [hp, if_neg ha]

/-- Concrete graph for the C6 witness: root at address 1 with two children at
addresses 2 and 3 (child-pointer array at slots 10, 11); every other address
holds a record with no parent and no children. -/
def demoNodeMem : NodeMem where
  nodeAt := fun a =>
    if a = 1 then ⟨0, 10, 2⟩
    else if a = 2 then ⟨1, 0, 0⟩
    else if a = 3 then ⟨1, 0, 0⟩
    else ⟨0, 0, 0⟩
  slotAt := fun s => if s = 10 then 2 else if s = 11 then 3 else 0

theorem demoNodeMem_children_one : Node.children demoNodeMem 1 = [2, 3] := by
  simp [Node.children, prim.slice, demoNodeMem, List.range_succ]

theorem demoNodeMem_coherent : parentLinksCoherent demoNodeMem 1 := by
  constructor
  · rfl
  · intro a ha c hc
    unfold Node.children prim.slice at hc
    by_cases h1 : a = 1
    · subst h1
      simp [demoNodeMem, List.range_succ] at hc
      rcases hc with hc | hc <;> subst hc <;> rfl
    · have hz : (demoNodeMem.nodeAt a).mNumChildren = 0 := by
        by_cases h2 : a = 2
        · subst h2; rfl
        · by_cases h3 : a = 3
          · subst h3; rfl
          · show (if a = 1 then aiNode.mk 0 10 2
                  else if a = 2 then aiNode.mk 1 0 0
                  else if a = 3 then aiNode.mk 1 0 0
                  else aiNode.mk 0 0 0).mNumChildren = 0
            rw [if_neg h1, if_neg h2, if_neg h3]
      rw [if_pos (Or.inl hz)] at hc
      cases hc

/-- Witness for C6 on the concrete three-node graph: the root's parent is
absent and each of its two children points back at it. -/
theorem node_tree_coherence_witness :
    Node.parent demoNodeMem 1 = none ∧
    Node.parent demoNodeMem 2 = some 1 ∧
    Node.parent demoNodeMem 3 = some 1 :=
  ⟨(node_tree_coherence demoNodeMem 1 demoNodeMem_coherent).1,
   (node_tree_coherence demoNodeMem 1 demoNodeMem_coherent).2 1 (by decide) 2
     (demoNodeMem_children_one ▸ by decide),
   (node_tree_coherence demoNodeMem 1 demoNodeMem_coherent).2 1 (by decide) 3
     (demoNodeMem_children_one ▸ by decide)⟩

/-!
## Embedded textures (src/texture.rs)
-/

/-- The fields of the foreign `ffi::aiTexture` used by `Texture::format_hint`
/ `Texture::as_texels`: width and height (`c_uint`), the format-hint
character array (modelled as the string its nul-terminated bytes decode to),
and the texel data pointer. -/
structure aiTexture where
  mWidth : Nat
  mHeight : Nat
  achFormatHint : String
  pcData : Nat

/-- The foreign texel memory behind `pcData`. -/
structure TexMem where
  texelAt : Nat → prim.Texel

/-- Embedding of `Texture::format_hint` (src/texture.rs lines 35-40): `None`
when the height is non-zero, otherwise the decoded hint string
(`CStr::from_ptr(..).to_str().ok()`; the model's hint is already valid
UTF-8). -/
def Texture.format_hint (t : aiTexture) : Option String :=
  if t.mHeight ≠ 0 then none
  else some t.achFormatHint

/-- Embedding of `Texture::as_texels` (src/texture.rs lines 42-50): `None`
when the height is zero, otherwise `(width, height, texels)` where the texel
slice is the bridge over `pcData` with `c_uint` length `w * h`
(32-bit wrapping product, as in the source's `u32` multiply). -/
def Texture.as_texels (mem : TexMem) (t : aiTexture) :
    Option (Nat × Nat × List prim.Texel) :=
  if t.mHeight = 0 then none
  else
    let len := (t.mWidth * t.mHeight) % 2 ^ 32
    some (t.mWidth, t.mHeight, prim.slice mem.texelAt t.pcData len)

/-- Claim C9: embedded-texture dichotomy.  For a texture whose data pointer
is non-null and whose `width * height` does not overflow `u32`: if the
height is non-zero, `as_texels` returns the decoded texel data of exactly
`width * height` texels (each read from the foreign texel memory) and
`format_hint` is absent; if the height is zero, `as_texels` is absent and
`format_hint` returns the short format hint. -/
theorem texture_texels_or_hint (mem : TexMem) (t : aiTexture)
    (hdata : t.pcData ≠ 0) (hbound : t.mWidth * t.mHeight < 2 ^ 32) :
    (t.mHeight ≠ 0 →
      Texture.as_texels mem t =
        some (t.mWidth, t.mHeight,
          (List.range (t.mWidth * t.mHeight)).map (fun i => mem.texelAt (t.pcData + i))) ∧
      (Texture.as_texels mem t).all (fun wht => wht.2.2.length = t.mWidth * t.mHeight) ∧
      Texture.format_hint t = none) ∧
    (t.mHeight = 0 →
      Texture.as_texels mem t = none ∧
      Texture.format_hint t = some t.achFormatHint) := by
  constructor
  · intro h
    have hlen : t.mWidth * t.mHeight % 2 ^ 32 = t.mWidth * t.mHeight :=
      Nat.mod_eq_of_lt hbound
    have htex : Texture.as_texels mem t =
        some (t.mWidth, t.mHeight,
          (List.range (t.mWidth * t.mHeight)).map (fun i => mem.texelAt (t.pcData + i))) := by
      unfold Texture.as_texels
      rw [if_neg h]
      simp only [hlen]
      rcases Nat.eq_zero_or_pos (t.mWidth * t.mHeight) with hz | hpos
      · rw [hz]
        unfold prim.slice
        rw [if_pos (Or.inl rfl)]
        simp
      · rw [prim.slice_pos mem.texelAt t.pcData _ hdata hpos]
    refine ⟨htex, ?_, ?_⟩
    · rw [htex]
      simp [Option.all]
    · unfold Texture.format_hint
      rw [if_pos h]
  · intro h
    constructor
    · unfold Texture.as_texels
      rw [if_pos h]
    · unfold Texture.format_hint
      rw [if_neg (by simp [h])]

/-- Concrete textures for the C9 witness: a decoded 2-by-3 texel block at
address 5, and a compressed blob with hint "png". -/
def texDecoded : aiTexture := ⟨2, 3, "", 5⟩

def texCompressed : aiTexture := ⟨40, 0, "png", 5⟩

def demoTexMem : TexMem where
  texelAt := fun a => ((a : Rat), 0, 0, 0)

/-- Witness for C9 on the two concrete textures. -/
theorem texture_texels_or_hint_witness :
    (Texture.as_texels demoTexMem texDecoded =
      some (2, 3, (List.range 6).map (fun i => demoTexMem.texelAt (5 + i))) ∧
     (Texture.as_texels demoTexMem texDecoded).all
       (fun wht => wht.2.2.length = 6) ∧
     Texture.format_hint texDecoded = none) ∧
    (Texture.as_texels demoTexMem texCompressed = none ∧
     Texture.format_hint texCompressed = some "png") :=
  ⟨(texture_texels_or_hint demoTexMem texDecoded (by decide) (by decide)).1 (by decide),
   (texture_texels_or_hint demoTexMem texCompressed (by decide) (by decide)).2 rfl⟩

/-!
## Mesh channel accessors (src/mesh.rs)
-/

/-- `ffi::AI_MAX_NUMBER_OF_COLOR_SETS` (the `ffi` module is not under src/;
the constant's value is assimp's documented 0x8 — the claims below do not
depend on the value). -/
def AI_MAX_NUMBER_OF_COLOR_SETS : Nat := 0x8

/-- `ffi::AI_MAX_NUMBER_OF_TEXTURECOORDS` (same provenance as above). -/
def AI_MAX_NUMBER_OF_TEXTURECOORDS : Nat := 0x8

/-- The fields of the foreign `ffi::aiMesh` used by the channel accessors:
vertex count, the fixed arrays of per-channel base pointers `mColors` /
`mTextureCoords` (slot index → pointer) and the per-channel component counts
`mNumUVComponents`. -/
structure aiMesh where
  mNumVertices : Nat
  mColors : Nat → Nat
  mTextureCoords : Nat → Nat
  mNumUVComponents : Nat → Nat

/-- The foreign vertex-attribute memory. -/
structure MeshMem where
  colorAt : Nat → prim.Color4
  vecAt : Nat → prim.Vector3

/-- Embedding of `Mesh::colors` (src/mesh.rs lines 285-290). -/
def Mesh.colors (mem : MeshMem) (m : aiMesh) (channel : Nat) : List prim.Color4 :=
  if AI_MAX_NUMBER_OF_COLOR_SETS ≤ channel then []
  else prim.slice mem.colorAt (m.mColors channel) m.mNumVertices

/-- Embedding of `Mesh::texture_coords` (src/mesh.rs lines 296-301). -/
def Mesh.texture_coords (mem : MeshMem) (m : aiMesh) (channel : Nat) : List prim.Vector3 :=
  if AI_MAX_NUMBER_OF_TEXTURECOORDS ≤ channel then []
  else prim.slice mem.vecAt (m.mTextureCoords channel) m.mNumVertices

/-- Embedding of `Mesh::num_uv_components` (src/mesh.rs lines 310-315). -/
def Mesh.num_uv_components (m : aiMesh) (channel : Nat) : Nat :=
  if AI_MAX_NUMBER_OF_TEXTURECOORDS ≤ channel then 0
  else m.mNumUVComponents channel

/-- Claim C10 (implicit): the mesh channel accessors are total over channel
indices — for every mesh and channel index at or beyond the fixed channel
maximum, `Mesh::colors` returns the empty sequence, `Mesh::texture_coords`
returns the empty sequence and `Mesh::num_uv_components` returns 0; the
guards keep the fixed-size channel arrays from ever being indexed out of
bounds. -/
theorem mesh_channel_accessors_total (mem : MeshMem) (m : aiMesh) (ch : Nat) :
    (AI_MAX_NUMBER_OF_COLOR_SETS ≤ ch → Mesh.colors mem m ch = []) ∧
    (AI_MAX_NUMBER_OF_TEXTURECOORDS ≤ ch →
      Mesh.texture_coords mem m ch = [] ∧ Mesh.num_uv_components m ch = 0) := by
  constructor
  · intro h
    unfold Mesh.colors
    rw [if_pos h]
  · intro h
    constructor
    · unfold Mesh.texture_coords
      rw [if_pos h]
    · unfold Mesh.num_uv_components
      rw [if_pos h]

/-- Concrete mesh for the C10 witness: 4 vertices, all channel pointers
non-null (address 50), all component counts 2. -/
def demoMesh : aiMesh where
  mNumVertices := 4
  mColors := fun _ => 50
  mTextureCoords := fun _ => 50
  mNumUVComponents := fun _ => 2

def demoMeshMem : MeshMem where
  colorAt := fun _ => (1, 1, 1, 1)
  vecAt := fun _ => (0, 0, 0)

/-- Witness for C10 on `demoMesh` at the out-of-range channel 8. -/
theorem mesh_channel_accessors_total_witness :
    Mesh.colors demoMeshMem demoMesh 8 = [] ∧
    Mesh.texture_coords demoMeshMem demoMesh 8 = [] ∧
    Mesh.num_uv_components demoMesh 8 = 0 :=
  ⟨(mesh_channel_accessors_total demoMeshMem demoMesh 8).1 (by decide),
   ((mesh_channel_accessors_total demoMeshMem demoMesh 8).2 (by decide)).1,
   ((mesh_channel_accessors_total demoMeshMem demoMesh 8).2 (by decide)).2⟩
